import Mathlib

/-!
Verification of the `secured-mlops` ML service (`ml-service/main.py`) against
its specification.  The Python code is shallowly embedded: the Redis-backed
rate limiter becomes explicit state passing over an association list of
counters, JWT issuing/verification becomes a record with a signing-key field,
the model store becomes explicit file-system state, and the FastAPI `/predict`
pipeline becomes a function from a request plus state to a response plus state.
External capabilities (hashlib digests, the sklearn classifier) are
parameters or are modelled from the spec, as noted on each definition.
-/

namespace MLService

/-! ## Rate limiter (`rate_limit`, main.py lines 206-219)

Redis is modelled as an association list of entries carrying the counter value
and the absolute expiry instant (`SETEX key 60 1` stores value 1 expiring 60
seconds from now; `INCR` preserves any existing TTL; `GET` on a key whose
expiry has passed behaves as if the key is absent). -/

structure RLEntry where
  key : String
  count : Nat
  /-- Absolute expiry instant; `none` models a key with no TTL. -/
  expiresAt : Option Nat
  deriving DecidableEq, Repr

abbrev RLState := List RLEntry

/-- Is the entry alive (not yet expired) at time `now`?  Redis expires a key
once the current time reaches its expiry instant. -/
def RLEntry.alive (e : RLEntry) (now : Nat) : Bool :=
  match e.expiresAt with
  | none => true
  | some t => now < t

/-- Embeds `redis_client.get(key)`: the stored counter, or `none` if the key is
absent or expired. -/
def redisGet (st : RLState) (now : Nat) (k : String) : Option Nat :=
  match st.find? (fun e => e.key == k) with
  | some e => if e.alive now then some e.count else none
  | none => none

/-- Embeds `redis_client.setex(key, ttl, v)`: store `v` under `key` with expiry
`now + ttl`, replacing any previous entry. -/
def redisSetex (st : RLState) (now : Nat) (k : String) (ttl v : Nat) : RLState :=
  ⟨k, v, some (now + ttl)⟩ :: st.filter (fun e => e.key != k)

/-- Embeds `redis_client.incr(key)`: increment a live key in place (TTL preserved);
on an absent or expired key Redis creates it with value 1 and no TTL. -/
def redisIncr (st : RLState) (now : Nat) (k : String) : RLState :=
  match st.find? (fun e => e.key == k) with
  | some e =>
      if e.alive now then
        st.map (fun e' => if e'.key == k then { e' with count := e'.count + 1 } else e')
      else
        ⟨k, 1, none⟩ :: st.filter (fun e' => e'.key != k)
  | none => ⟨k, 1, none⟩ :: st

/-- Outcome of one admission decision.  `denied` carries the HTTP status and
detail of the raised `HTTPException`. -/
inductive RateResult where
  | allowed
  | denied (statusCode : Nat) (detail : String)
  deriving DecidableEq, Repr

/-- Embeds `rate_limit(user)` (main.py 206-219): read the per-user counter; if the
key is absent, set it to 1 with a 60-second expiry and admit; if the
pre-increment counter is ≥ 10, deny with HTTP 429 leaving the store untouched;
otherwise increment and admit. -/
def rate_limit (st : RLState) (now : Nat) (user : String) : RateResult × RLState :=
  let key := "rate_limit:" ++ user
  match redisGet st now key with
  | none => (.allowed, redisSetex st now key 60 1)
  | some current =>
      if current ≥ 10 then
        (.denied 429 "Rate limit exceeded", st)
      else
        (.allowed, redisIncr st now key)

/-- Process a sequence of requests from one user, one timestamp per request,
threading the rate-limit store; returns the admission decisions in order. -/
def admitSeq (ts : List Nat) (user : String) (st : RLState) :
    List RateResult × RLState :=
  match ts with
  | [] => ([], st)
  | t :: rest =>
      let (r, st') := rate_limit st t user
      let (rs, st'') := admitSeq rest user st'
      (r :: rs, st'')

/-- While a user's counter entry is live (every request time below the stored
expiry) and has room (`c + ts.length ≤ 10`), each request is admitted and the
counter grows by one per request, the expiry untouched (`INCR` keeps the TTL). -/
lemma admitSeq_live_run (user : String) (ts : List Nat) :
    ∀ (c e : Nat), c + ts.length ≤ 10 → (∀ t ∈ ts, t < e) →
    admitSeq ts user [⟨"rate_limit:" ++ user, c, some e⟩] =
      (List.replicate ts.length .allowed,
       [⟨"rate_limit:" ++ user, c + ts.length, some e⟩]) := by
  induction ts with
  | nil => intro c e _ _; simp [admitSeq]
  | cons t rest ih =>
      intro c e hle hall
      have ht : t < e := hall t (List.mem_cons_self t rest)
      have hc : ¬ (c ≥ 10) := by simp at hle ⊢; omega
      have hrec := ih (c + 1) e (by simp at hle ⊢; omega)
        (fun x hx => hall x (List.mem_cons_of_mem _ hx))
      simp [admitSeq, rate_limit, redisGet, redisIncr, RLEntry.alive, List.find?,
        ht, hc, hrec, List.replicate_succ]
      omega

/-- The function `admitSeq` distributes over list append: process the first batch, then the
second from the resulting store. -/
lemma admitSeq_append (xs ys : List Nat) (user : String) (st : RLState) :
    admitSeq (xs ++ ys) user st =
      ((admitSeq xs user st).1 ++ (admitSeq ys user (admitSeq xs user st).2).1,
       (admitSeq ys user (admitSeq xs user st).2).2) := by
  induction xs generalizing st with
  | nil => simp [admitSeq]
  | cons x xs ih => simp [admitSeq, ih]

/-- C1. For a single identity starting from an empty store, of 11 requests
whose times all fall within 60 seconds of the first, exactly the first 10 are
admitted and the 11th is denied (the pre-increment counter having reached 10);
a request at or after the 60-second mark finds the key expired, is admitted,
and restarts the counter at 1. -/
theorem rate_limit_window_C1 (user : String) (t0 : Nat) (mid : List Nat)
    (tlast tnext : Nat) (hmid : mid.length = 9)
    (hmidw : ∀ t ∈ mid, t < t0 + 60) (hlast : tlast < t0 + 60)
    (hnext : t0 + 60 ≤ tnext) :
    admitSeq (t0 :: (mid ++ [tlast, tnext])) user [] =
      (List.replicate 10 .allowed ++
        [.denied 429 "Rate limit exceeded", .allowed],
       [⟨"rate_limit:" ++ user, 1, some (tnext + 60)⟩]) := by
  have hfirst : rate_limit [] t0 user =
      (.allowed, [⟨"rate_limit:" ++ user, 1, some (t0 + 60)⟩]) := by
    simp [rate_limit, redisGet, redisSetex, List.find?]
  have hmidrun := admitSeq_live_run user mid 1 (t0 + 60) (by omega) hmidw
  have hnotlt : ¬ (tnext < t0 + 60) := by omega
  simp only [admitSeq, hfirst, admitSeq_append, hmidrun, hmid]
  simp [admitSeq, rate_limit, redisGet, redisSetex, redisIncr, RLEntry.alive,
    List.find?, List.filter, hlast, hnotlt, hmid]

/-- Closed witness for C1: requests at seconds 0..9 are admitted, the 11th at
second 10 is denied, and one at second 60 is admitted afresh. -/
theorem rate_limit_window_C1_witness :
    admitSeq (0 :: ([1, 2, 3, 4, 5, 6, 7, 8, 9] ++ [10, 60])) "demo_user" [] =
      (List.replicate 10 .allowed ++
        [.denied 429 "Rate limit exceeded", .allowed],
       [⟨"rate_limit:" ++ "demo_user", 1, some 120⟩]) :=
  rate_limit_window_C1 "demo_user" 0 [1, 2, 3, 4, 5, 6, 7, 8, 9] 10 60
    (by decide) (by decide) (by decide) (by decide)

/-- C10. A denied admission leaves the rate-limit store unchanged: when
the pre-increment counter read for the identity is already ≥ 10, `rate_limit`
raises HTTP 429 without incrementing the counter or touching its expiry. -/
theorem rate_limit_deny_frame_C10 (st : RLState) (now : Nat) (user : String)
    (c : Nat) (hget : redisGet st now ("rate_limit:" ++ user) = some c)
    (hc : 10 ≤ c) :
    rate_limit st now user = (.denied 429 "Rate limit exceeded", st) := by
  simp [rate_limit, hget, hc]

/-- Closed witness for C10 at a concrete saturated store. -/
theorem rate_limit_deny_frame_C10_witness :
    rate_limit [⟨"rate_limit:" ++ "alice", 10, some 100⟩] 5 "alice" =
      (.denied 429 "Rate limit exceeded",
       [⟨"rate_limit:" ++ "alice", 10, some 100⟩]) :=
  rate_limit_deny_frame_C10 [⟨"rate_limit:" ++ "alice", 10, some 100⟩] 5
    "alice" 10 (by decide) (by decide)

/-! ## Token service (`create_access_token` / `verify_token`, main.py 181-203)

A JWT is modelled as its claims plus the key it was signed with; signature
verification succeeds exactly when the verifying secret equals the signing
key (HMAC with an unforgeable MAC).  python-jose treats a token as expired
precisely when `exp < now` (zero leeway). -/

def ACCESS_TOKEN_EXPIRE_MINUTES : Nat := 30

structure JWTToken where
  /-- Holds the `sub` claim, absent when the encoded payload had no `"sub"` entry. -/
  sub : Option String
  /-- Holds the `exp` claim, an absolute instant in seconds. -/
  exp : Nat
  /-- The key the token was signed with. -/
  sigKey : Nat
  deriving DecidableEq, Repr

/-- Embeds `create_access_token(data)` (main.py 181-186): copy the payload and set
`exp = now + 30 minutes`, then sign with the configured secret. -/
def create_access_token (secret now : Nat) (dataSub : Option String) : JWTToken :=
  { sub := dataSub, exp := now + ACCESS_TOKEN_EXPIRE_MINUTES * 60, sigKey := secret }

/-- Outcome of a request guard: the verified username, or an
`HTTPException` with status code and detail. -/
inductive AuthOutcome where
  | ok (username : String)
  | unauthorized (statusCode : Nat) (detail : String)
  deriving DecidableEq, Repr

/-- Embeds `jwt.decode` (python-jose): returns the payload's `sub` claim if the
signature verifies and the token is not expired, else raises `JWTError`
(modelled as `none`).  Expired means `exp < now`. -/
def jwtDecode (secret now : Nat) (t : JWTToken) : Option (Option String) :=
  if t.sigKey = secret ∧ now ≤ t.exp then some t.sub else none

/-- Embeds `verify_token` (main.py 188-203): decode; on `JWTError` or on a missing
`sub` claim raise HTTP 401, otherwise return the username. -/
def verify_token (secret now : Nat) (t : JWTToken) : AuthOutcome :=
  match jwtDecode secret now t with
  | none => .unauthorized 401 "Invalid authentication credentials"
  | some payloadSub =>
      match payloadSub with
      | some username => .ok username
      | none => .unauthorized 401 "Invalid authentication credentials"

/-- C3. Any token issued with a subject verifies back to that subject for
30 minutes after issue, and verification rejects exactly the tokens that are
wrongly signed, expired, or lack a `sub` claim. -/
theorem verify_token_C3 (secret tIssue now : Nat) (sub : String)
    (tok : JWTToken)
    (hfresh : now ≤ tIssue + ACCESS_TOKEN_EXPIRE_MINUTES * 60) :
    verify_token secret now (create_access_token secret tIssue (some sub)) =
      .ok sub ∧
    ((∃ d, verify_token secret now tok = .unauthorized 401 d) ↔
      (tok.sigKey ≠ secret ∨ tok.exp < now ∨ tok.sub = none)) := by
  constructor
  · simp [verify_token, jwtDecode, create_access_token, hfresh]
  · by_cases h1 : tok.sigKey = secret
    · by_cases h2 : now ≤ tok.exp
      · cases hsub : tok.sub <;>
          simp [verify_token, jwtDecode, h1, h2, hsub, Nat.not_lt.mpr h2]
      · simp [verify_token, jwtDecode, h1, h2]
        omega
    · simp [verify_token, jwtDecode, h1]

/-- Closed witness for C3: a token issued at time 0 still verifies at the
1800-second boundary, and a token signed with the wrong key is rejected. -/
theorem verify_token_C3_witness :
    (verify_token 7 1800 (create_access_token 7 0 (some "demo_user")) =
      .ok "demo_user" ∧
    ((∃ d, verify_token 7 1800 (⟨some "x", 0, 8⟩ : JWTToken) =
        .unauthorized 401 d) ↔
      ((⟨some "x", 0, 8⟩ : JWTToken).sigKey ≠ 7 ∨
       (⟨some "x", 0, 8⟩ : JWTToken).exp < 1800 ∨
       (⟨some "x", 0, 8⟩ : JWTToken).sub = none))) :=
  verify_token_C3 7 0 1800 "demo_user" ⟨some "x", 0, 8⟩ (by decide)

/-! ## Model store (`ModelManager`, main.py 83-178)

The file system holds the model artifact (`/app/models/iris_model.pkl`), the
co-located digest file (`iris_model.pkl.hash`) and the metadata JSON, each
modelled as an optional content.  `hashlib.sha256` and pickling are external:
the digest is a parameter `digest : List Nat → Nat` over artifact bytes, and
a trained model is represented by its serialized bytes.  The sklearn trainer
is external (spec §1 non-goals): its held-out result on the deterministic
seed-42 80/20 split of the 150-sample iris set (120 train / 30 test rows) is
the parameter `correct`, the number of correct test predictions, giving
accuracy `correct / 30`. -/

structure Metadata where
  version : String
  accuracy : ℚ
  hash : Nat
  deriving DecidableEq, Repr

structure FS where
  modelFile : Option (List Nat)
  hashFile : Option Nat
  metaFile : Option Metadata
  deriving DecidableEq, Repr

structure MMState where
  model : Option (List Nat)
  model_hash : Option Nat
  model_version : String
  deriving DecidableEq, Repr

inductive TrainError where
  /-- Corresponds to `ValueError(f"Model accuracy too low: {accuracy}")` (main.py 148-149);
  the spec's `ModelQualityError`. -/
  | modelQuality (accuracy : ℚ)
  deriving DecidableEq, Repr

inductive LogLevel where
  | info
  | warning
  | error
  deriving DecidableEq, Repr

structure LogEntry where
  level : LogLevel
  event : String
  user : Option String
  err : Option String
  deriving DecidableEq, Repr

/-- Size of the held-out test split: `train_test_split(test_size=0.2)` on the
150-row iris dataset yields 30 test rows. -/
def irisTestSize : Nat := 30

/-- Held-out accuracy from the number of correct test predictions. -/
def heldOutAccuracy (correct : Nat) : ℚ := (correct : ℚ) / (irisTestSize : ℚ)

/-- The minimum acceptable accuracy `0.8` (main.py 148). -/
def ACCURACY_THRESHOLD : ℚ := 4 / 5

/-- The three file writes of a successful `train_model` (main.py 151-173), in
program order: artifact bytes, then digest, then metadata.  Each is a plain
`open`/`write` — there is no write-then-rename step. -/
def trainWrites (digest : List Nat → Nat) (serialized : List Nat)
    (accuracy : ℚ) (version : String) : List (FS → FS) :=
  [fun fs => { fs with modelFile := some serialized },
   fun fs => { fs with hashFile := some (digest serialized) },
   fun fs =>
     { fs with metaFile := some (Metadata.mk version accuracy (digest serialized)) }]

/-- The file system after the first `k` writes: an interruption after the
`k`-th write leaves exactly this state. -/
def applyFirst (steps : List (FS → FS)) (k : Nat) (fs : FS) : FS :=
  (steps.take k).foldl (fun s f => f s) fs

/-- Embeds `train_model` (main.py 119-175): train on the seed-42 80/20 split,
compute held-out accuracy, raise when it is below 0.8, else write artifact,
digest and metadata and hold the model (and its digest) in memory. -/
def train_model (digest : List Nat → Nat) (serialized : List Nat)
    (correct : Nat) (fs : FS) (st : MMState) :
    Except TrainError (FS × MMState × List LogEntry) :=
  let accuracy := heldOutAccuracy correct
  if accuracy < ACCURACY_THRESHOLD then
    .error (.modelQuality accuracy)
  else
    .ok (applyFirst (trainWrites digest serialized accuracy st.model_version)
           3 fs,
         { st with model := some serialized,
                   model_hash := some (digest serialized) },
         [⟨.info, "Training new model", none, none⟩,
          ⟨.info, "Model trained and saved", none, none⟩])

/-- Embeds `load_or_train_model` (main.py 90-117): if the artifact exists read it,
recompute its digest and compare with the stored digest file — retraining
with a warning on mismatch or when the digest file is absent
(`FileNotFoundError`), loading otherwise; with no artifact, train. -/
def load_or_train_model (digest : List Nat → Nat) (serialized : List Nat)
    (correct : Nat) (fs : FS) (st : MMState) :
    Except TrainError (FS × MMState × List LogEntry) :=
  match fs.modelFile with
  | none => train_model digest serialized correct fs st
  | some model_data =>
      let current_hash := digest model_data
      match fs.hashFile with
      | none =>
          (train_model digest serialized correct fs st).map
            (fun r => (r.1, r.2.1,
              ⟨.warning, "Hash file not found, retraining model", none, none⟩
                :: r.2.2))
      | some stored_hash =>
          if current_hash ≠ stored_hash then
            (train_model digest serialized correct fs st).map
              (fun r => (r.1, r.2.1,
                ⟨.warning, "Model hash mismatch, retraining model", none, none⟩
                  :: r.2.2))
          else
            .ok (fs,
                 { st with model := some model_data,
                           model_hash := some current_hash },
                 [⟨.info, "Model loaded successfully", none, none⟩])

/-- Startup: `model_manager = ModelManager()` runs at module import (main.py 178),
before `uvicorn.run` starts serving: an uncaught training error aborts
startup, so the service never serves after a failed quality gate. -/
def service_startup (digest : List Nat → Nat) (serialized : List Nat)
    (correct : Nat) (fs : FS) :
    Except TrainError (FS × MMState × List LogEntry) :=
  load_or_train_model digest serialized correct fs ⟨none, none, "1.0.0"⟩

/-- Stand-in digest used to instantiate the `digest` parameter in closed
witnesses; every theorem below holds for an arbitrary digest function. -/
def digestSum (b : List Nat) : Nat := b.foldl (fun a x => a + x) 0

/-- Does the digest file on disk match the artifact on disk (vacuously true
when either is absent)? -/
def digestConsistentB (digest : List Nat → Nat) (fs : FS) : Bool :=
  match fs.modelFile, fs.hashFile with
  | some b, some h => h == digest b
  | _, _ => true

/-- C4. Training fails with `ModelQualityError` exactly when the held-out
accuracy on the deterministic seed-42 80/20 split falls below 0.8, and then
startup (which loads-or-trains before serving) aborts with that error. -/
theorem quality_gate_C4 (digest : List Nat → Nat) (serialized : List Nat)
    (correct : Nat) (fs : FS) (st : MMState)
    (hnofile : fs.modelFile = none) :
    ((∃ acc, train_model digest serialized correct fs st =
        .error (.modelQuality acc)) ↔
      heldOutAccuracy correct < ACCURACY_THRESHOLD) ∧
    (heldOutAccuracy correct < ACCURACY_THRESHOLD →
      service_startup digest serialized correct fs =
        .error (.modelQuality (heldOutAccuracy correct))) := by
  constructor
  · by_cases h : heldOutAccuracy correct < ACCURACY_THRESHOLD <;>
      simp [train_model, h]
  · intro h
    simp [service_startup, load_or_train_model, hnofile, train_model, h]

/-- Closed witness for C4: 23 of 30 correct test predictions is accuracy
23/30 < 0.8, so training (and hence startup) fails the quality gate. -/
theorem quality_gate_C4_witness :
    ((∃ acc, train_model digestSum [2, 3] 23 (FS.mk none none none)
        (MMState.mk none none "1.0.0") = .error (.modelQuality acc)) ↔
      heldOutAccuracy 23 < ACCURACY_THRESHOLD) ∧
    (heldOutAccuracy 23 < ACCURACY_THRESHOLD →
      service_startup digestSum [2, 3] 23 (FS.mk none none none) =
        .error (.modelQuality (heldOutAccuracy 23))) :=
  quality_gate_C4 digestSum [2, 3] 23 (FS.mk none none none)
    (MMState.mk none none "1.0.0") (by decide)

/-- C5. Digest round-trip: after any successful `train_model`, running
`load_or_train_model` on the resulting file system finds the stored digest
equal to the recomputed one, loads the artifact, and never retrains —
whatever fresh training data it was given for the retrain case. -/
theorem digest_roundtrip_C5 (digest : List Nat → Nat)
    (serialized serialized2 : List Nat) (correct correct2 : Nat)
    (fs fs2 : FS) (st st2 stL : MMState) (logs : List LogEntry)
    (h : train_model digest serialized correct fs st = .ok (fs2, st2, logs)) :
    load_or_train_model digest serialized2 correct2 fs2 stL =
      .ok (fs2,
           MMState.mk (some serialized) (some (digest serialized))
             stL.model_version,
           [⟨.info, "Model loaded successfully", none, none⟩]) := by
  by_cases hacc : heldOutAccuracy correct < ACCURACY_THRESHOLD
  · simp [train_model, hacc] at h
  · simp [train_model, hacc] at h
    obtain ⟨hfs2, _, _⟩ := h
    subst hfs2
    simp [load_or_train_model, applyFirst, trainWrites]

/-- Closed witness for C5 at a concrete successful training run. -/
theorem digest_roundtrip_C5_witness :
    load_or_train_model digestSum [9] 0
      (FS.mk (some [2, 3]) (some 5)
        (some (Metadata.mk "1.0.0" (heldOutAccuracy 30) 5)))
      (MMState.mk none none "1.0.0") =
      .ok (FS.mk (some [2, 3]) (some 5)
            (some (Metadata.mk "1.0.0" (heldOutAccuracy 30) 5)),
           MMState.mk (some [2, 3]) (some 5) "1.0.0",
           [⟨.info, "Model loaded successfully", none, none⟩]) :=
  digest_roundtrip_C5 digestSum [2, 3] [9] 30 0 (FS.mk none none none)
    (FS.mk (some [2, 3]) (some 5)
      (some (Metadata.mk "1.0.0" (heldOutAccuracy 30) 5)))
    (MMState.mk none none "1.0.0")
    (MMState.mk (some [2, 3]) (some 5) "1.0.0")
    (MMState.mk none none "1.0.0")
    [⟨.info, "Training new model", none, none⟩,
     ⟨.info, "Model trained and saved", none, none⟩]
    (by norm_num [train_model, applyFirst, trainWrites, digestSum,
      heldOutAccuracy, irisTestSize, ACCURACY_THRESHOLD])

/-- Counterexample to C6 as stated: the writes of `train_model` are plain
sequential writes, not write-then-rename; interrupting a retrain after the
artifact write but before the digest write leaves a digest file on disk that
does not match the artifact file. -/
theorem train_atomicity_C6_counterexample :
    digestConsistentB digestSum (FS.mk (some [0]) (some 0) none) = true ∧
    digestConsistentB digestSum
      (applyFirst (trainWrites digestSum [1] 1 "1.0.0") 1
        (FS.mk (some [0]) (some 0) none)) = false := by
  decide

/-- C6 (amended). `train_model` writes artifact, digest, and metadata
sequentially in that order, with no rename step; starting from a
digest-consistent disk, an interruption at any point other than between the
artifact write and the digest write leaves the digest file matching the
artifact file (interruption exactly there can leave a mismatch). -/
theorem train_write_order_C6 (digest : List Nat → Nat)
    (serialized : List Nat) (accuracy : ℚ) (version : String) (fs : FS)
    (k : Nat) (hfs : digestConsistentB digest fs = true) (hk : k ≠ 1) :
    digestConsistentB digest
      (applyFirst (trainWrites digest serialized accuracy version) k fs) =
      true := by
  match k, hk with
  | 0, _ => simpa [applyFirst, trainWrites] using hfs
  | 2, _ => simp [applyFirst, trainWrites, digestConsistentB, List.take]
  | n + 3, _ =>
      simp [applyFirst, trainWrites, digestConsistentB,
        List.take_succ_cons, List.take_nil]

/-- Closed witness for C6 (amended): interruption right after the digest
write leaves a consistent disk. -/
theorem train_write_order_C6_witness :
    digestConsistentB digestSum
      (applyFirst (trainWrites digestSum [1] 1 "1.0.0") 2
        (FS.mk (some [0]) (some 0) none)) = true :=
  train_write_order_C6 digestSum [1] 1 "1.0.0" (FS.mk (some [0]) (some 0) none)
    2 (by decide) (by decide)

/-- C9. With an artifact present but the digest file absent,
`load_or_train_model` does not fail and does not load the unverified
artifact: it behaves as a retrain with a "Hash file not found" warning
prepended — the same recovery shape as a digest mismatch — and on success the
in-memory model is the freshly trained one. -/
theorem missing_hash_file_C9 (digest : List Nat → Nat) (serialized : List Nat)
    (correct : Nat) (fs : FS) (st : MMState) (b : List Nat)
    (hmodel : fs.modelFile = some b) (hhash : fs.hashFile = none)
    (hacc : ¬ heldOutAccuracy correct < ACCURACY_THRESHOLD) :
    load_or_train_model digest serialized correct fs st =
      (train_model digest serialized correct fs st).map
        (fun r => (r.1, r.2.1,
          ⟨.warning, "Hash file not found, retraining model", none, none⟩
            :: r.2.2)) ∧
    ∃ fs2, load_or_train_model digest serialized correct fs st =
      .ok (fs2,
           { st with model := some serialized,
                     model_hash := some (digest serialized) },
           [⟨.warning, "Hash file not found, retraining model", none, none⟩,
            ⟨.info, "Training new model", none, none⟩,
            ⟨.info, "Model trained and saved", none, none⟩]) := by
  constructor
  · simp [load_or_train_model, hmodel, hhash]
  · refine ⟨applyFirst
      (trainWrites digest serialized (heldOutAccuracy correct)
        st.model_version) 3 fs, ?_⟩
    simp [load_or_train_model, hmodel, hhash, train_model, hacc, Except.map]

/-- Closed witness for C9 at a concrete artifact-without-digest disk. -/
theorem missing_hash_file_C9_witness :
    load_or_train_model digestSum [2, 3] 30
      (FS.mk (some [5]) none none) (MMState.mk none none "1.0.0") =
      (train_model digestSum [2, 3] 30 (FS.mk (some [5]) none none)
        (MMState.mk none none "1.0.0")).map
        (fun r => (r.1, r.2.1,
          ⟨.warning, "Hash file not found, retraining model", none, none⟩
            :: r.2.2)) ∧
    ∃ fs2, load_or_train_model digestSum [2, 3] 30
      (FS.mk (some [5]) none none) (MMState.mk none none "1.0.0") =
      .ok (fs2,
           { MMState.mk none none "1.0.0" with
               model := some [2, 3], model_hash := some (digestSum [2, 3]) },
           [⟨.warning, "Hash file not found, retraining model", none, none⟩,
            ⟨.info, "Training new model", none, none⟩,
            ⟨.info, "Model trained and saved", none, none⟩]) :=
  missing_hash_file_C9 digestSum [2, 3] 30 (FS.mk (some [5]) none none)
    (MMState.mk none none "1.0.0") [5] (by decide) (by decide)
    (by norm_num [heldOutAccuracy, irisTestSize, ACCURACY_THRESHOLD])

/-! ## The `/predict` request pipeline (main.py 65-74, 235-275)

FastAPI resolves the `Depends` chain of an endpoint before validating its
request body: `solve_dependencies` invokes every sub-dependency (here
`rate_limit`, which itself depends on `verify_token`) and only afterwards
runs `request_body_to_args`, which performs the pydantic validation of
`PredictionInput`.  An `HTTPException` raised by a dependency therefore
short-circuits before the body is ever validated, and a validation failure
is reported (HTTP 422) only after the dependencies have run. -/

/-- Embeds `PredictionInput.validate_features` (main.py 68-74): exactly 4 features,
none negative.  Feature values are rationals, standing for the floats. -/
def validate_features (v : List ℚ) : Except String (List ℚ) :=
  if v.length ≠ 4 then .error "Iris dataset requires exactly 4 features"
  else if v.any (fun f => decide (f < 0)) then
    .error "Feature values must be positive"
  else .ok v

inductive HTTPResult (α : Type) where
  | ok (value : α)
  | httpError (statusCode : Nat) (detail : String)
  deriving DecidableEq, Repr

/-- Embeds `PredictionOutput` (main.py 76-80); the ISO timestamp is represented by
the instant it renders. -/
structure PredictionOutput where
  prediction : Nat
  probability : List ℚ
  model_version : String
  timestamp : Nat
  deriving DecidableEq, Repr

/-- One `/predict` request: dependency chain (token verification, then rate
limiting), then body validation, then the endpoint body (main.py 235-275),
whose inference block catches every exception, logs it with `error` severity
and the endpoint's `user` value, and raises a generic HTTP 500.  `infer` is
the held model's `predict`/`predict_proba`, returning `Except` for a raised
exception with message `e`.

The verified username flows only into `rate_limit`'s own parameter (from
`Depends(verify_token)`); `rate_limit` itself has no return statement, so it
returns `None`, and `Depends(rate_limit)` binds the endpoint's `user`
parameter (main.py 238) to `None` — the `str` annotation is not enforced on a
dependency's return value.  Hence every `user=user` field the endpoint body
logs (main.py 257, 271) is `None`, modelled as the `endpointUser` binding
below. -/
def handle_predict (secret now : Nat)
    (infer : List ℚ → Except String (Nat × List ℚ))
    (tok : JWTToken) (features : List ℚ) (rl : RLState) :
    HTTPResult PredictionOutput × RLState × List LogEntry :=
  match verify_token secret now tok with
  | .unauthorized code d => (.httpError code d, rl, [])
  | .ok username =>
      match rate_limit rl now username with
      | (.denied code d, rl2) => (.httpError code d, rl2, [])
      | (.allowed, rl2) =>
          let endpointUser : Option String := none
          match validate_features features with
          | .error msg => (.httpError 422 msg, rl2, [])
          | .ok feats =>
              match infer feats with
              | .error e =>
                  (.httpError 500 "Prediction failed", rl2,
                   [⟨.error, "Prediction failed", endpointUser, some e⟩])
              | .ok (pred, probs) =>
                  (.ok ⟨pred, probs, "1.0.0", now⟩, rl2,
                   [⟨.info, "Prediction made", endpointUser, none⟩])

/-- Counterexample to C2 as stated: with a malformed feature vector of length
3 and a valid token, the request does fail with the validation error, but the
rate-limit counter has already been created/incremented by the dependency
chain; and with a malformed body plus a badly signed token the response is
the 401 auth error, so token verification precedes body validation. -/
theorem validation_order_C2_counterexample :
    (handle_predict 7 0 (fun _ => .error "unused")
        (create_access_token 7 0 (some "demo_user")) [1, 2, 3] []).1 =
      .httpError 422 "Iris dataset requires exactly 4 features" ∧
    (handle_predict 7 0 (fun _ => .error "unused")
        (create_access_token 7 0 (some "demo_user")) [1, 2, 3] []).2.1 ≠
      ([] : RLState) ∧
    (handle_predict 7 0 (fun _ => .error "unused")
        (⟨some "u", 3000, 8⟩ : JWTToken) [1, 2, 3] []).1 =
      .httpError 401 "Invalid authentication credentials" := by
  decide

/-- C2 (amended). A feature vector of length ≠ 4 (or with a negative
entry) always makes `/predict` fail with the `ValidationError` and the
endpoint body — in particular inference — never runs; but the failure comes
only after the dependency chain: token verification happens first, and for an
authenticated, rate-admitted request the rate counter has already been read
and incremented when validation fails. -/
theorem validation_after_deps_C2 (secret now : Nat)
    (infer infer2 : List ℚ → Except String (Nat × List ℚ))
    (tok : JWTToken) (features : List ℚ) (rl rl2 : RLState) (user : String)
    (hbad : features.length ≠ 4 ∨ features.any (fun f => decide (f < 0)) = true)
    (hauth : verify_token secret now tok = .ok user)
    (hrl : rate_limit rl now user = (.allowed, rl2)) :
    (∃ msg, handle_predict secret now infer tok features rl =
      (.httpError 422 msg, rl2, [])) ∧
    handle_predict secret now infer tok features rl =
      handle_predict secret now infer2 tok features rl := by
  have hval : ∃ msg, validate_features features = .error msg := by
    rcases hbad with h4 | hneg
    · exact ⟨"Iris dataset requires exactly 4 features",
        by simp [validate_features, h4]⟩
    · by_cases h4 : features.length = 4
      · exact ⟨"Feature values must be positive",
          by simp [validate_features, h4, hneg]⟩
      · exact ⟨"Iris dataset requires exactly 4 features",
          by simp [validate_features, h4]⟩
  obtain ⟨msg, hval⟩ := hval
  exact ⟨⟨msg, by simp [handle_predict, hauth, hrl, hval]⟩,
    by simp [handle_predict, hauth, hrl, hval]⟩

/-- Closed witness for C2 (amended) at a concrete malformed request. -/
theorem validation_after_deps_C2_witness :
    (∃ msg, handle_predict 7 0 (fun _ => .error "boom")
        (create_access_token 7 0 (some "demo_user")) [1, 2, 3] [] =
      (.httpError 422 msg,
       [⟨"rate_limit:" ++ "demo_user", 1, some 60⟩], [])) ∧
    handle_predict 7 0 (fun _ => .error "boom")
        (create_access_token 7 0 (some "demo_user")) [1, 2, 3] [] =
      handle_predict 7 0 (fun _ => .ok (0, []))
        (create_access_token 7 0 (some "demo_user")) [1, 2, 3] [] :=
  validation_after_deps_C2 7 0 (fun _ => .error "boom") (fun _ => .ok (0, []))
    (create_access_token 7 0 (some "demo_user")) [1, 2, 3] []
    [⟨"rate_limit:" ++ "demo_user", 1, some 60⟩] "demo_user"
    (by decide) (by decide) (by decide)

/-- C7. Evaluation of the code at the failing input: with a valid token for
subject "demo_user" and an inference raising "numpy shape mismatch", the
exception is caught, the caller receives only the generic HTTP 500
"Prediction failed" carrying no internal exception detail — but the
`error`-severity log entry carries `user := none`, never the failing subject,
because `rate_limit` has no return statement and `Depends(rate_limit)` binds
the endpoint's `user` to `None`.  The claim's "including the failing subject"
is therefore false of the code as written, against the evident intent of the
`user : str` annotation and the audit logging. -/
theorem inference_error_C7 :
    handle_predict 7 0 (fun _ => .error "numpy shape mismatch")
        (create_access_token 7 0 (some "demo_user")) [5, 3, 1, 2] [] =
      (.httpError 500 "Prediction failed",
       [⟨"rate_limit:" ++ "demo_user", 1, some 60⟩],
       [⟨.error, "Prediction failed", none, some "numpy shape mismatch"⟩]) ∧
    ∀ le ∈ (handle_predict 7 0 (fun _ => .error "numpy shape mismatch")
        (create_access_token 7 0 (some "demo_user")) [5, 3, 1, 2] []).2.2,
      le.user ≠ some "demo_user" := by
  decide

/-! ## The classifier capability (C8) -/

/-- Number of iris classes. -/
def NUM_CLASSES : Nat := 3

/-- Modelled from the spec: the trained classifier itself is not part of the
repository source — spec §1 treats it as the external capability
`Model.predict(features) -> (class, probabilities)`.  It is modelled as a
random forest over the 3 classes: each tree maps a feature vector to a leaf
class. -/
abbrev Tree := List ℚ → Fin 3

/-- Modelled from the spec: a forest is a list of trees. -/
abbrev Forest := List Tree

/-- Modelled from the spec: `model.predict_proba(x)[0]` — the per-class mean
of the trees' leaf distributions, here the per-class vote frequencies. -/
def predict_proba (trees : Forest) (x : List ℚ) : List ℚ :=
  (List.range NUM_CLASSES).map
    (fun c => ((trees.filter (fun t => (t x).val == c)).length : ℚ) /
      (trees.length : ℚ))

/-- Index of the first maximal element, continuing a scan whose best value so
far is `best` at index `bestIdx`, the next element having index `i`. -/
def argmaxAux : ℚ → Nat → Nat → List ℚ → Nat
  | _, bestIdx, _, [] => bestIdx
  | best, bestIdx, i, x :: xs =>
      if best < x then argmaxAux x i (i + 1) xs
      else argmaxAux best bestIdx (i + 1) xs

/-- Embeds `numpy.argmax`: index of the first maximal element (0 on empty input). -/
def argmaxIdx : List ℚ → Nat
  | [] => 0
  | x :: xs => argmaxAux x 0 1 xs

/-- Modelled from the spec: `model.predict(x)[0]` — the class of maximal
averaged probability. -/
def forest_predict (trees : Forest) (x : List ℚ) : Nat :=
  argmaxIdx (predict_proba trees x)

/-- The inference function a loaded forest provides to the endpoint; it
raises no exception. -/
def forest_infer (trees : Forest) (x : List ℚ) :
    Except String (Nat × List ℚ) :=
  .ok (forest_predict trees x, predict_proba trees x)

lemma argmaxAux_lt (xs : List ℚ) :
    ∀ (best : ℚ) (b i j : Nat), b < j → i + xs.length ≤ j →
      argmaxAux best b i xs < j := by
  induction xs with
  | nil => intro best b i j hb _; simpa [argmaxAux] using hb
  | cons x xs ih =>
      intro best b i j hb hlen
      simp only [List.length_cons] at hlen
      simp only [argmaxAux]
      by_cases h : best < x
      · simp only [if_pos h]
        exact ih x i (i + 1) j (by omega) (by omega)
      · simp only [if_neg h]
        exact ih best b (i + 1) j hb (by omega)

lemma argmaxIdx_lt (l : List ℚ) (h : l ≠ []) : argmaxIdx l < l.length := by
  cases l with
  | nil => simp at h
  | cons x xs =>
      simpa [argmaxIdx] using argmaxAux_lt xs x 0 1 (xs.length + 1)
        (by omega) (by omega)

/-- Each tree votes exactly one of the three classes, so the per-class vote
counts partition the forest. -/
lemma vote_partition (trees : Forest) (x : List ℚ) :
    (trees.filter (fun t => (t x).val == 0)).length +
      (trees.filter (fun t => (t x).val == 1)).length +
      (trees.filter (fun t => (t x).val == 2)).length = trees.length := by
  induction trees with
  | nil => simp
  | cons t ts ih =>
      have hvlt : (t x).val < 3 := (t x).isLt
      by_cases h0 : (t x).val = 0
      · simp [List.filter_cons, h0]
        rw [← ih]
        ring
      · by_cases h1 : (t x).val = 1
        · simp [List.filter_cons, h1]
          rw [← ih]
          ring
        · have h2 : (t x).val = 2 := by clear ih; omega
          simp [List.filter_cons, h2]
          rw [← ih]
          ring

lemma predict_proba_length (trees : Forest) (x : List ℚ) :
    (predict_proba trees x).length = NUM_CLASSES := by
  simp [predict_proba]

/-- For a nonempty forest the class probabilities sum to exactly 1. -/
lemma predict_proba_sum (trees : Forest) (x : List ℚ) (h : trees ≠ []) :
    (predict_proba trees x).sum = 1 := by
  have hn : (trees.length : ℚ) ≠ 0 := by simpa using h
  have hc : ((trees.filter (fun t => (t x).val == 0)).length : ℚ) +
      ((trees.filter (fun t => (t x).val == 1)).length : ℚ) +
      ((trees.filter (fun t => (t x).val == 2)).length : ℚ) =
      (trees.length : ℚ) := by
    exact_mod_cast vote_partition trees x
  have hr : List.range NUM_CLASSES = [0, 1, 2] := rfl
  simp [predict_proba, hr]
  field_simp
  linarith [hc]

/-- C8. Every successful prediction against the 3-class model carries a
probability vector with exactly as many entries as classes (3), summing to
exactly 1 — hence within the 1e-6 tolerance — and a predicted class index in
{0,1,2}. -/
theorem prediction_invariant_C8 (secret now : Nat) (trees : Forest)
    (tok : JWTToken) (features feats : List ℚ) (rl rl2 : RLState)
    (user : String) (htrees : trees ≠ [])
    (hauth : verify_token secret now tok = .ok user)
    (hrl : rate_limit rl now user = (.allowed, rl2))
    (hval : validate_features features = .ok feats) :
    ∃ out,
      (handle_predict secret now (forest_infer trees) tok features rl).1 =
        .ok out ∧
      out.probability.length = NUM_CLASSES ∧
      out.probability.sum = 1 ∧
      |out.probability.sum - 1| ≤ 1 / 1000000 ∧
      out.prediction < NUM_CLASSES := by
  refine ⟨⟨forest_predict trees feats, predict_proba trees feats,
    "1.0.0", now⟩, ?_, ?_, ?_, ?_, ?_⟩
  · simp [handle_predict, hauth, hrl, hval, forest_infer]
  · exact predict_proba_length trees feats
  · exact predict_proba_sum trees feats htrees
  · simp only [predict_proba_sum trees feats htrees]
    norm_num
  · have hne : predict_proba trees feats ≠ [] := by
      intro hnil
      have hlen := predict_proba_length trees feats
      rw [hnil] at hlen
      simp [NUM_CLASSES] at hlen
    have h := argmaxIdx_lt (predict_proba trees feats) hne
    rw [predict_proba_length] at h
    simpa [forest_predict] using h

/-- Closed witness for C8: a one-tree forest on the reference-style request. -/
theorem prediction_invariant_C8_witness :
    ∃ out,
      (handle_predict 7 0 (forest_infer [fun _ => (0 : Fin 3)])
          (create_access_token 7 0 (some "demo_user")) [5, 3, 1, 2] []).1 =
        .ok out ∧
      out.probability.length = NUM_CLASSES ∧
      out.probability.sum = 1 ∧
      |out.probability.sum - 1| ≤ 1 / 1000000 ∧
      out.prediction < NUM_CLASSES :=
  prediction_invariant_C8 7 0 [fun _ => (0 : Fin 3)]
    (create_access_token 7 0 (some "demo_user")) [5, 3, 1, 2] [5, 3, 1, 2]
    [] [⟨"rate_limit:" ++ "demo_user", 1, some 60⟩] "demo_user"
    (List.cons_ne_nil _ _) (by decide) (by decide) (by rfl)

end MLService
